import Mathlib

/-!
Shallow embedding of `operator/pkg/reconciliation/constructor.go` from the
cass-operator repository (dse-operator): constructors for the Kubernetes
objects synthesized per DseDatacenter — headless services, per-rack
StatefulSets, a PodDisruptionBudget, and the operator-progress label
transition — together with theorems settling the specification claims.

Go maps of labels are embedded as association lists (`LabelMap`) with the
Go assignment (`mapSet`) and lookup (`mapGet`) semantics.  External
collaborators that live in packages of this repository outside the provided
sources (the `v1alpha1` label/name getters, `oplabels`, `httphelper`) are
modelled from the spec, each marked `Modelled from the spec:`.
-/

set_option autoImplicit false

namespace CassOperator

/-- A Go `map[string]string`, embedded as an association list (first
matching key wins on lookup, assignment overwrites in place). -/
abbrev LabelMap := List (String × String)

/-- Lookup `m[k]` returning `none` when the key is absent. -/
def mapGet (m : LabelMap) (k : String) : Option String :=
  (m.find? (fun p => p.1 == k)).map (fun p => p.2)

/-- Go map lookup `m[k]`, which yields the zero value `""` for a missing key. -/
def mapGetD (m : LabelMap) (k : String) : String :=
  (mapGet m k).getD ""

/-- Go map assignment `m[k] = v`: overwrite the entry when present,
append it otherwise. -/
def mapSet (m : LabelMap) (k v : String) : LabelMap :=
  if m.any (fun p => p.1 == k) then
    m.map (fun p => if p.1 == k then (p.1, v) else p)
  else
    m ++ [(k, v)]

/-! ### Label keys and values

Modelled from the spec: the label key constants live in the
`apis/datastax/v1alpha1` and `oplabels` packages, which are not among the
provided sources.  The spec only requires them to be fixed, pairwise
distinct keys (cluster / datacenter / rack scope, seed marker, node state,
operator progress, provenance "managed-by" tag). -/

/-- Modelled from the spec: label key identifying the cluster. -/
def ClusterLabel : String := "com.datastax.dse.cluster"

/-- Modelled from the spec: label key identifying the datacenter. -/
def DatacenterLabel : String := "com.datastax.dse.datacenter"

/-- Modelled from the spec: label key identifying the rack. -/
def RackLabel : String := "com.datastax.dse.rack"

/-- Modelled from the spec: marker label carried by seed nodes. -/
def SeedNodeLabel : String := "com.datastax.dse.seednode"

/-- Modelled from the spec: handoff node-state label set on pods. -/
def DseNodeState : String := "com.datastax.dse.nodestate"

/-- Modelled from the spec: the operator-progress label on the datacenter. -/
def DseOperatorProgressLabel : String := "com.datastax.dse.operatorprogress"

/-- Modelled from the spec: the provenance ("managed-by") tag key. -/
def ManagedByLabelKey : String := "app.kubernetes.io/managed-by"

/-- Modelled from the spec: the provenance ("managed-by") tag value. -/
def ManagedByLabelValue : String := "com.datastax.dse-operator"

/-! ### Data model -/

/-- A rack entry of the DseDatacenter spec: `Rack{Name, Zone}`. -/
structure Rack where
  name : String
  zone : String
  deriving Repr, DecidableEq

/-- The optional storage-claim spec (`StorageClaim` in the CRD): declared
storage class and resource requests.  Resources are carried opaquely. -/
structure StorageClaim where
  storageClassName : String
  resources : String
  deriving Repr, DecidableEq

/-- A `corev1.VolumeMount`. -/
structure VolumeMount where
  name : String
  mountPath : String
  deriving Repr, DecidableEq

/-- The volume sources that appear in this file. -/
inductive VolumeSource where
  | emptyDir
  | secret (secretName : String)
  deriving Repr, DecidableEq

/-- A `corev1.Volume`. -/
structure Volume where
  name : String
  source : VolumeSource
  deriving Repr, DecidableEq

/-- Modelled from the spec: the transport security material the external
SecurityDecorator grafts onto the pod template for the management
endpoint (volumes plus container mounts). -/
structure SecurityMaterial where
  volumes : List Volume
  mounts : List VolumeMount
  deriving Repr, DecidableEq

/-- A `corev1.EnvVar`: either a literal value or a downward-API field
reference. -/
structure EnvVar where
  name : String
  value : String := ""
  fieldPath : Option String := none
  deriving Repr, DecidableEq

/-- A `corev1.Probe` of the HTTP-get kind used here. -/
structure Probe where
  httpGetPort : Int
  httpGetPath : String
  initialDelaySeconds : Int
  periodSeconds : Int
  deriving Repr, DecidableEq

/-- A `corev1.Container`, restricted to the fields this file sets.
Container ports and resource requirements are carried opaquely. -/
structure Container where
  name : String
  image : String
  args : List String := []
  env : List EnvVar := []
  ports : List String := []
  resources : String := ""
  livenessProbe : Option Probe := none
  readinessProbe : Option Probe := none
  volumeMounts : List VolumeMount := []
  deriving Repr, DecidableEq

/-- A `corev1.PodSecurityContext` with the three identity fields set here. -/
structure PodSecurityContext where
  runAsUser : Int
  runAsGroup : Int
  fsGroup : Int
  deriving Repr, DecidableEq

/-- A `corev1.NodeSelectorRequirement`. -/
structure NodeSelectorRequirement where
  key : String
  op : String
  values : List String
  deriving Repr, DecidableEq

/-- A `corev1.NodeSelectorTerm`. -/
structure NodeSelectorTerm where
  matchExpressions : List NodeSelectorRequirement
  deriving Repr, DecidableEq

/-- A `corev1.NodeSelector`. -/
structure NodeSelector where
  nodeSelectorTerms : List NodeSelectorTerm
  deriving Repr, DecidableEq

/-- A `corev1.NodeAffinity`.  The preferred (soft) terms are kept so that
"hard, not preferred" is expressible; their weights are omitted because the
source never sets any. -/
structure NodeAffinity where
  requiredDuringSchedulingIgnoredDuringExecution : Option NodeSelector := none
  preferredDuringSchedulingIgnoredDuringExecution : List NodeSelectorTerm := []
  deriving Repr, DecidableEq

/-- A `metav1.LabelSelectorRequirement` (`Exists`-style, no values used here). -/
structure LabelSelectorRequirement where
  key : String
  op : String
  deriving Repr, DecidableEq

/-- A `metav1.LabelSelector`. -/
structure LabelSelector where
  matchLabels : LabelMap := []
  matchExpressions : List LabelSelectorRequirement := []
  deriving Repr, DecidableEq

/-- A `corev1.PodAffinityTerm`. -/
structure PodAffinityTerm where
  labelSelector : LabelSelector
  topologyKey : String
  deriving Repr, DecidableEq

/-- A `corev1.PodAntiAffinity`; preferred (soft) terms kept as for
`NodeAffinity`. -/
structure PodAntiAffinity where
  requiredDuringSchedulingIgnoredDuringExecution : List PodAffinityTerm := []
  preferredDuringSchedulingIgnoredDuringExecution : List PodAffinityTerm := []
  deriving Repr, DecidableEq

/-- A `corev1.PodSpec`, restricted to the fields this file sets.  The Go
`Affinity` pointer struct is flattened into its two components. -/
structure PodSpec where
  affinityNodeAffinity : Option NodeAffinity := none
  affinityPodAntiAffinity : Option PodAntiAffinity := none
  securityContext : PodSecurityContext
  volumes : List Volume := []
  initContainers : List Container := []
  serviceAccountName : String := ""
  containers : List Container := []
  deriving Repr, DecidableEq

/-- A `corev1.PodTemplateSpec`. -/
structure PodTemplateSpec where
  labels : LabelMap
  spec : PodSpec
  deriving Repr, DecidableEq

/-- A `corev1.PersistentVolumeClaim` template as emitted here. -/
structure PersistentVolumeClaim where
  labels : LabelMap
  name : String
  accessModes : List String
  resources : String
  storageClassName : String
  deriving Repr, DecidableEq

/-- An `appsv1.StatefulSet`, restricted to the fields this file sets. -/
structure StatefulSet where
  name : String
  ns : String
  labels : LabelMap
  selectorMatchLabels : LabelMap
  replicas : Int
  serviceName : String
  podManagementPolicy : String
  template : PodTemplateSpec
  volumeClaimTemplates : List PersistentVolumeClaim
  deriving Repr, DecidableEq

/-- A `corev1.ServicePort`. -/
structure ServicePort where
  name : String
  port : Int
  targetPort : Int
  deriving Repr, DecidableEq

/-- A `corev1.Service`, restricted to the fields this file sets; `ns` is
the object's namespace. -/
structure Service where
  name : String := ""
  ns : String := ""
  labels : LabelMap := []
  selector : LabelMap := []
  svcType : String := ""
  clusterIP : String := ""
  publishNotReadyAddresses : Bool := false
  ports : List ServicePort := []
  deriving Repr, DecidableEq

/-- A `policyv1beta1.PodDisruptionBudget`, restricted to the fields set here. -/
structure PodDisruptionBudget where
  name : String
  ns : String
  labels : LabelMap
  selectorMatchLabels : LabelMap
  minAvailable : Int
  deriving Repr, DecidableEq

/-- A `types.NamespacedName`. -/
structure NamespacedName where
  name : String
  ns : String
  deriving Repr, DecidableEq

instance {ε α : Type} [DecidableEq ε] [DecidableEq α] : DecidableEq (Except ε α) := fun a b =>
  match a, b with
  | .error x, .error y => if h : x = y then .isTrue (by rw [h]) else .isFalse (by simp [h])
  | .error _, .ok _ => .isFalse (by simp)
  | .ok _, .error _ => .isFalse (by simp)
  | .ok x, .ok y => if h : x = y then .isTrue (by rw [h]) else .isFalse (by simp [h])

/-- The `DseDatacenterSpec` fields this file reads.  The results of the
external collaborator methods (`GetConfigAsJSON`, `GetContainerPorts`,
`GetServerImage`) and of the security decorator are modelled from the spec
as `Except` data of the input, since those methods live outside the
provided sources: each invocation is a pure function of the spec. -/
structure DseDatacenterSpec where
  dseClusterName : String
  dseVersion : String
  size : Int
  racks : List Rack
  storageClaim : Option StorageClaim
  resources : String
  allowMultipleNodesPerWorker : Bool
  serviceAccount : String
  configBuilderImage : String
  /-- Modelled from the spec: `render(spec) -> configString, error`. -/
  configAsJSON : Except String String
  /-- Modelled from the spec: container-port resolution result. -/
  containerPorts : Except String (List String)
  /-- Modelled from the spec: server-image resolution result. -/
  serverImage : Except String String
  /-- Modelled from the spec: outcome of the external SecurityDecorator
  for this spec — either transport security material or an error. -/
  managementApiSecurity : Except String SecurityMaterial
  deriving Repr, DecidableEq

/-- A `DseDatacenter` object: metadata name/namespace, the object's label
map (`GetLabels`, possibly nil) and the spec. -/
structure DseDatacenter where
  name : String
  ns : String
  labels : Option LabelMap
  spec : DseDatacenterSpec
  deriving Repr, DecidableEq

/-! ### Label and name getters (Modelled from the spec) -/

/-- Modelled from the spec: `GetClusterLabels` returns a fresh cluster-scope
label set. -/
def GetClusterLabels (dc : DseDatacenter) : LabelMap :=
  [(ClusterLabel, dc.spec.dseClusterName)]

/-- Modelled from the spec: `GetDatacenterLabels` returns a fresh
datacenter-scope label set (cluster key plus datacenter key). -/
def GetDatacenterLabels (dc : DseDatacenter) : LabelMap :=
  [(ClusterLabel, dc.spec.dseClusterName), (DatacenterLabel, dc.name)]

/-- Modelled from the spec: `GetRackLabels` returns a fresh rack-scope label
set; rack scope always includes the cluster and datacenter keys. -/
def GetRackLabels (dc : DseDatacenter) (rackName : String) : LabelMap :=
  [(ClusterLabel, dc.spec.dseClusterName), (DatacenterLabel, dc.name),
   (RackLabel, rackName)]

/-- Modelled from the spec: `oplabels.AddManagedByLabel` merges the
provenance tag into a label set. -/
def AddManagedByLabel (m : LabelMap) : LabelMap :=
  mapSet m ManagedByLabelKey ManagedByLabelValue

/-- Modelled from the spec: name of the client (datacenter) service. -/
def GetDseDatacenterServiceName (dc : DseDatacenter) : String :=
  dc.spec.dseClusterName ++ "-" ++ dc.name ++ "-service"

/-- Modelled from the spec: name of the seed service. -/
def GetSeedServiceName (dc : DseDatacenter) : String :=
  dc.spec.dseClusterName ++ "-seed-service"

/-- Modelled from the spec: name of the all-pods service. -/
def GetAllPodsServiceName (dc : DseDatacenter) : String :=
  dc.spec.dseClusterName ++ "-" ++ dc.name ++ "-all-pods-service"

/-- Modelled from the spec: the config-builder (init container) image. -/
def GetConfigBuilderImage (dc : DseDatacenter) : String :=
  dc.spec.configBuilderImage

/-- Modelled from the spec: `Spec.GetRacks()`, the ordered rack list. -/
def GetRacks (spec : DseDatacenterSpec) : List Rack :=
  spec.racks

/-! ### Service constructors (`constructor.go` lines 21–86) -/

/-- `makeGenericHeadlessService`: a fresh headless (`ClusterIP = "None"`)
service in the datacenter's namespace, with the datacenter labels (plus
provenance tag) as both object labels and selector. -/
def makeGenericHeadlessService (dseDatacenter : DseDatacenter) : Service :=
  let labels := AddManagedByLabel (GetDatacenterLabels dseDatacenter)
  { ns := dseDatacenter.ns
    labels := labels
    selector := labels
    svcType := "ClusterIP"
    clusterIP := "None" }

/-- `newServiceForDseDatacenter`: the client service with the two fixed
ports (native 9042, mgmt-api 8080). -/
def newServiceForDseDatacenter (dseDatacenter : DseDatacenter) : Service :=
  let svcName := GetDseDatacenterServiceName dseDatacenter
  let service := makeGenericHeadlessService dseDatacenter
  { service with
      name := svcName
      ports := [
        { name := "native", port := 9042, targetPort := 9042 },
        { name := "mgmt-api", port := 8080, targetPort := 8080 } ] }

/-- `buildLabelSelectorForSeedService`: the cluster labels narrowed to just
the seed nodes. -/
def buildLabelSelectorForSeedService (dseDatacenter : DseDatacenter) : LabelMap :=
  mapSet (GetClusterLabels dseDatacenter) SeedNodeLabel "true"

/-- `newSeedServiceForDseDatacenter`: headless service over the seed nodes,
publishing not-ready addresses. -/
def newSeedServiceForDseDatacenter (dseDatacenter : DseDatacenter) : Service :=
  let service := makeGenericHeadlessService dseDatacenter
  { service with
      name := GetSeedServiceName dseDatacenter
      labels := AddManagedByLabel (GetClusterLabels dseDatacenter)
      selector := buildLabelSelectorForSeedService dseDatacenter
      publishNotReadyAddresses := true }

/-- `newAllDsePodsServiceForDseDatacenter`: headless service over all DSE
pods of the datacenter, ready or not. -/
def newAllDsePodsServiceForDseDatacenter (dseDatacenter : DseDatacenter) : Service :=
  let service := makeGenericHeadlessService dseDatacenter
  { service with
      name := GetAllPodsServiceName dseDatacenter
      publishNotReadyAddresses := true }

/-- `newNamespacedNameForStatefulSet`. -/
def newNamespacedNameForStatefulSet (dseDc : DseDatacenter) (rackName : String) :
    NamespacedName :=
  { name := dseDc.spec.dseClusterName ++ "-" ++ dseDc.name ++ "-" ++ rackName ++ "-sts"
    ns := dseDc.ns }

/-! ### Affinity (`constructor.go` lines 401–451) -/

/-- `calculateNodeAffinity`: pin all pods of a statefulset to a zone. -/
def calculateNodeAffinity (zone : String) : Option NodeAffinity :=
  if zone == "" then
    none
  else
    some {
      requiredDuringSchedulingIgnoredDuringExecution := some {
        nodeSelectorTerms := [{
          matchExpressions := [{
            key := "failure-domain.beta.kubernetes.io/zone"
            op := "In"
            values := [zone] }] }] } }

/-- `calculatePodAntiAffinity`: keep DSE pods of a statefulset away from
other DSE pods. -/
def calculatePodAntiAffinity (allowMultipleNodesPerWorker : Bool) :
    Option PodAntiAffinity :=
  if allowMultipleNodesPerWorker then
    none
  else
    some {
      requiredDuringSchedulingIgnoredDuringExecution := [{
        labelSelector := {
          matchExpressions := [
            { key := ClusterLabel, op := "Exists" },
            { key := DatacenterLabel, op := "Exists" },
            { key := RackLabel, op := "Exists" } ] }
        topologyKey := "kubernetes.io/hostname" }] }

/-! ### PodDisruptionBudget (`constructor.go` lines 343–362) -/

/-- Two's-complement wrap of an integer into the `int32` range, mirroring
Go's `int32(...)` conversion. -/
def toInt32 (n : Int) : Int :=
  (n + 2 ^ 31) % 2 ^ 32 - 2 ^ 31

/-- `newPodDisruptionBudgetForDatacenter`: minAvailable is `Size - 1`
computed in `int32` arithmetic. -/
def newPodDisruptionBudgetForDatacenter (dseDatacenter : DseDatacenter) :
    PodDisruptionBudget :=
  let minAvailable := toInt32 (dseDatacenter.spec.size - 1)
  { name := dseDatacenter.name ++ "-pdb"
    ns := dseDatacenter.ns
    labels := AddManagedByLabel (GetDatacenterLabels dseDatacenter)
    selectorMatchLabels := GetDatacenterLabels dseDatacenter
    minAvailable := minAvailable }

/-! ### StatefulSet constructor (`constructor.go` lines 101–341) -/

/-- The fixed non-root numeric identity (`userID` in the source). -/
def userID : Int := 999

/-- The `dse-config` mount shared by the init container and main container. -/
def dseConfigVolumeMount : VolumeMount :=
  { name := "dse-config", mountPath := "/config" }

/-- The `dse-logs` mount shared by the main container and log sidecar. -/
def dseLogsVolumeMount : VolumeMount :=
  { name := "dse-logs", mountPath := "/var/log/cassandra" }

/-- The zone selected by the rack loop in `newStatefulSetForDseDatacenter`:
last rack whose name matches wins, empty string when none does. -/
def zoneForRack (racks : List Rack) (rackName : String) : String :=
  racks.foldl (fun zone rack => if rack.name == rackName then rack.zone else zone) ""

/-- An apostrophe, used in the downward-API field path below. -/
def squote : String := String.singleton (Char.ofNat 39)

/-- `fmt.Sprintf("metadata.labels['%s']", datastaxv1alpha1.RackLabel)`. -/
def rackNameFieldPath : String :=
  "metadata.labels[" ++ squote ++ RackLabel ++ squote ++ "]"

/-- Modelled from the spec: `httphelper.AddManagementApiServerSecurity`
mutates the assembled template in place, adding transport security material
for the management endpoint, and may return an error; the outcome for a
given datacenter is carried in `spec.managementApiSecurity`. -/
def AddManagementApiServerSecurity (dseDatacenter : DseDatacenter)
    (template : PodTemplateSpec) : PodTemplateSpec × Option String :=
  match dseDatacenter.spec.managementApiSecurity with
  | .error e => (template, some e)
  | .ok mat =>
    ({ template with
        spec := { template.spec with
          volumes := template.spec.volumes ++ mat.volumes
          containers := template.spec.containers.map
            (fun c => { c with volumeMounts := c.volumeMounts ++ mat.mounts }) } },
      none)

/-- The data-volume mounts of the main container: config and logs mounts,
plus the `dse-data` mount when a storage claim is declared. -/
def dseVolumeMountsFor (dseDatacenter : DseDatacenter) : List VolumeMount :=
  [dseConfigVolumeMount, dseLogsVolumeMount] ++
    (match dseDatacenter.spec.storageClaim with
     | some _ => [{ name := "dse-data", mountPath := "/var/lib/cassandra" }]
     | none => [])

/-- The volume claim templates (`volumeCaimTemplates` in the source, typo
kept): one fixed-name claim with access mode forced to `ReadWriteOnce` when
a storage claim is declared, none otherwise. -/
def volumeCaimTemplatesFor (rackName : String) (dseDatacenter : DseDatacenter) :
    List PersistentVolumeClaim :=
  match dseDatacenter.spec.storageClaim with
  | some storageClaim =>
    [{ labels := AddManagedByLabel (GetRackLabels dseDatacenter rackName)
       name := "dse-data"
       accessModes := ["ReadWriteOnce"]
       resources := storageClaim.resources
       storageClassName := storageClaim.storageClassName }]
  | none => []

/-- The pod template assembled by `newStatefulSetForDseDatacenter` before
security decoration, given the three successfully resolved external values
(config data, container ports, server image). -/
def buildDsePodTemplateSpec (rackName : String) (dseDatacenter : DseDatacenter)
    (configData : String) (ports : List String) (dseImage : String) :
    PodTemplateSpec :=
  let podLabels :=
    mapSet (AddManagedByLabel (GetRackLabels dseDatacenter rackName))
      DseNodeState "Ready-to-Start"
  let zone := zoneForRack (GetRacks dseDatacenter.spec) rackName
  let serviceAccount :=
    if dseDatacenter.spec.serviceAccount != "" then dseDatacenter.spec.serviceAccount
    else "default"
  { labels := podLabels
    spec := {
      affinityNodeAffinity := calculateNodeAffinity zone
      affinityPodAntiAffinity :=
        calculatePodAntiAffinity dseDatacenter.spec.allowMultipleNodesPerWorker
      securityContext := { runAsUser := userID, runAsGroup := userID, fsGroup := userID }
      volumes := [
        { name := "dse-config", source := .emptyDir },
        { name := "dse-logs", source := .emptyDir } ]
      initContainers := [{
        name := "dse-config-init"
        image := GetConfigBuilderImage dseDatacenter
        volumeMounts := [dseConfigVolumeMount]
        env := [
          { name := "CONFIG_FILE_DATA", value := configData },
          { name := "POD_IP", fieldPath := some "status.podIP" },
          { name := "RACK_NAME", fieldPath := some rackNameFieldPath },
          { name := "DSE_VERSION", value := dseDatacenter.spec.dseVersion } ] }]
      serviceAccountName := serviceAccount
      containers := [
        { name := "dse"
          image := dseImage
          resources := dseDatacenter.spec.resources
          env := [
            { name := "DS_LICENSE", value := "accept" },
            { name := "DSE_AUTO_CONF_OFF", value := "all" },
            { name := "USE_MGMT_API", value := "true" },
            { name := "DSE_MGMT_EXPLICIT_START", value := "true" } ]
          ports := ports
          livenessProbe := some {
            httpGetPort := 8080, httpGetPath := "/api/v0/probes/liveness"
            initialDelaySeconds := 15, periodSeconds := 15 }
          readinessProbe := some {
            httpGetPort := 8080, httpGetPath := "/api/v0/probes/readiness"
            initialDelaySeconds := 20, periodSeconds := 10 }
          volumeMounts := dseVolumeMountsFor dseDatacenter },
        { name := "dse-system-logger"
          image := "busybox"
          args := ["/bin/sh", "-c", "tail -n+1 -F /var/log/cassandra/system.log"]
          volumeMounts := [dseLogsVolumeMount] } ] } }

/-- `newStatefulSetForDseDatacenter`: builds the per-rack StatefulSet; a
failure of config rendering, port resolution or image resolution aborts
with that error.  The security-decoration call's error is discarded
(the blank identifier on line 320 of the source), while its in-place
template mutation is kept. -/
def newStatefulSetForDseDatacenter (rackName : String)
    (dseDatacenter : DseDatacenter) (replicaCount : Int) :
    Except String StatefulSet :=
  let replicaCountInt32 := toInt32 replicaCount
  let statefulSetLabels := AddManagedByLabel (GetRackLabels dseDatacenter rackName)
  let statefulSetSelectorLabels := GetRackLabels dseDatacenter rackName
  match dseDatacenter.spec.configAsJSON with
  | .error err => .error err
  | .ok configData =>
  match dseDatacenter.spec.containerPorts with
  | .error err => .error err
  | .ok ports =>
  match dseDatacenter.spec.serverImage with
  | .error err => .error err
  | .ok dseImage =>
  let nsName := newNamespacedNameForStatefulSet dseDatacenter rackName
  let template := buildDsePodTemplateSpec rackName dseDatacenter configData ports dseImage
  let decorated := AddManagementApiServerSecurity dseDatacenter template
  let template := decorated.1
  .ok {
    name := nsName.name
    ns := nsName.ns
    labels := statefulSetLabels
    selectorMatchLabels := statefulSetSelectorLabels
    replicas := replicaCountInt32
    serviceName := GetDseDatacenterServiceName dseDatacenter
    podManagementPolicy := "Parallel"
    template := template
    volumeClaimTemplates := volumeCaimTemplatesFor rackName dseDatacenter }

/-! ### Operator-progress label transition (`constructor.go` lines 364–399) -/

/-- `dseOperatorStatus`: the two legal progress values. -/
inductive DseOperatorStatus where
  | updating
  | ready
  deriving Repr, DecidableEq

/-- The string stored for each progress status. -/
def dseOperatorStatusString : DseOperatorStatus → String
  | .updating => "Updating"
  | .ready => "Ready"

/-- The external persistence client (`rc.Client`), modelled by the outcome
its `Update` returns and an instrumentation counter of issued writes. -/
structure ClientModel where
  updateResult : Option String
  writeCount : Nat := 0
  deriving Repr, DecidableEq

/-- One `rc.Client.Update(rc.Ctx, rc.DseDatacenter)` call: always counts as
one persistence write and yields the client's outcome. -/
def clientUpdate (client : ClientModel) : ClientModel × Option String :=
  ({ client with writeCount := client.writeCount + 1 }, client.updateResult)

/-- The pieces of `dsereconciliation.ReconciliationContext` this function
touches: the datacenter object's label map (`GetLabels`, possibly nil) and
the persistence client. -/
structure ReconciliationContext where
  dcLabels : Option LabelMap
  client : ClientModel
  deriving Repr, DecidableEq

/-- `addOperatorProgressLabel`: read the stored progress label; when it
already equals the desired value, return with no write; otherwise set the
label on the object, issue one persistence write, and propagate its error. -/
def addOperatorProgressLabel (rc : ReconciliationContext)
    (status : DseOperatorStatus) : ReconciliationContext × Option String :=
  let labelVal := dseOperatorStatusString status
  let dcLabels := match rc.dcLabels with
    | none => ([] : LabelMap)
    | some l => l
  if mapGetD dcLabels DseOperatorProgressLabel == labelVal then
    (rc, none)
  else
    let dcLabels := mapSet dcLabels DseOperatorProgressLabel labelVal
    let rc := { rc with dcLabels := some dcLabels }
    let updated := clientUpdate rc.client
    let rc := { rc with client := updated.1 }
    match updated.2 with
    | some err => (rc, some err)
    | none => (rc, none)

/-! ### Sample inputs for concrete evaluations -/

/-- A concrete storage claim used by concrete evaluations. -/
def sampleStorageClaim : StorageClaim :=
  { storageClassName := "standard", resources := "10Gi" }

/-- A concrete `DseDatacenterSpec` on which every external collaborator
succeeds. -/
def sampleSpec : DseDatacenterSpec :=
  { dseClusterName := "cluster1"
    dseVersion := "6.8.0"
    size := 3
    racks := [{ name := "rack1", zone := "zoneA" }]
    storageClaim := some sampleStorageClaim
    resources := "cpu:2"
    allowMultipleNodesPerWorker := false
    serviceAccount := ""
    configBuilderImage := "datastax/dse-config-builder:latest"
    configAsJSON := .ok "{}"
    containerPorts := .ok ["native", "mgmt-api"]
    serverImage := .ok "datastax/dse-server:6.8.0"
    managementApiSecurity := .ok { volumes := [], mounts := [] } }

/-- A concrete `DseDatacenter` on which every external collaborator
succeeds. -/
def sampleDc : DseDatacenter :=
  { name := "dc1", ns := "default", labels := none, spec := sampleSpec }

/-! ### Map lemmas -/

/-- Lookup of a key present in `m` is unchanged by appending entries. -/
theorem mapGet_append_left {m l : LabelMap} {k v : String}
    (h : mapGet m k = some v) : mapGet (m ++ l) k = some v := by
  unfold mapGet at h ⊢
  rcases hf : m.find? (fun p => p.1 == k) with _ | p
  · rw [hf] at h
    simp at h
  · rw [hf] at h
    rw [List.find?_append, hf]
    simpa using h

/-- Overwriting an existing key makes lookup return the new value. -/
theorem mapGet_map_overwrite (m : LabelMap) (k v : String)
    (h : m.any (fun p => p.1 == k) = true) :
    mapGet (m.map (fun p => if p.1 == k then (p.1, v) else p)) k = some v := by
  induction m with
  | nil => simp at h
  | cons p t ih =>
    by_cases hp : (p.1 == k) = true
    · simp only [List.map_cons, if_pos hp]
      unfold mapGet
      rw [List.find?_cons_of_pos]
      · simp
      · simpa using hp
    · have hp2 : (p.1 == k) = false := by simpa using hp
      have ht : t.any (fun q => q.1 == k) = true := by
        simpa [hp2] using h
      simp only [List.map_cons, if_neg hp]
      unfold mapGet
      rw [List.find?_cons_of_neg]
      · exact ih ht
      · simpa using hp

/-- After `mapSet m k v`, looking up `k` yields `v`. -/
theorem mapGet_mapSet_self (m : LabelMap) (k v : String) :
    mapGet (mapSet m k v) k = some v := by
  unfold mapSet
  by_cases h : m.any (fun p => p.1 == k) = true
  · rw [if_pos h]
    exact mapGet_map_overwrite m k v h
  · rw [if_neg h]
    have hnone : m.find? (fun p => p.1 == k) = none := by
      rw [List.find?_eq_none]
      intro x hx hpx
      exact h (List.any_eq_true.mpr ⟨x, hx, hpx⟩)
    unfold mapGet
    rw [List.find?_append, hnone]
    simp

/-! ### Claim theorems -/

/-- Claim C2: `calculateNodeAffinity ""` returns no constraint, and for any
nonempty zone it returns a hard (required, with no preferred terms) node
affinity requiring the node's zone label to be in exactly `{zone}`. -/
theorem claim_C2_calculateNodeAffinity (zone : String) :
    calculateNodeAffinity "" = none ∧
    (zone ≠ "" →
      calculateNodeAffinity zone = some {
        requiredDuringSchedulingIgnoredDuringExecution := some {
          nodeSelectorTerms := [{
            matchExpressions := [{
              key := "failure-domain.beta.kubernetes.io/zone"
              op := "In"
              values := [zone] }] }] }
        preferredDuringSchedulingIgnoredDuringExecution := [] }) := by
  refine ⟨rfl, fun h => ?_⟩
  simp [calculateNodeAffinity, h]

/-- Witness for C2 at the concrete zone `"zoneA"`. -/
theorem claim_C2_witness :
    calculateNodeAffinity "zoneA" = some {
      requiredDuringSchedulingIgnoredDuringExecution := some {
        nodeSelectorTerms := [{
          matchExpressions := [{
            key := "failure-domain.beta.kubernetes.io/zone"
            op := "In"
            values := ["zoneA"] }] }] }
      preferredDuringSchedulingIgnoredDuringExecution := [] } :=
  (claim_C2_calculateNodeAffinity "zoneA").2 (by decide)

/-- Claim C3: `calculatePodAntiAffinity true` returns no anti-affinity;
`calculatePodAntiAffinity false` returns a hard (required, with no
preferred terms) anti-affinity term with topology key
`kubernetes.io/hostname` whose selector requires the cluster, datacenter
and rack label keys to exist. -/
theorem claim_C3_calculatePodAntiAffinity :
    calculatePodAntiAffinity true = none ∧
    calculatePodAntiAffinity false = some {
      requiredDuringSchedulingIgnoredDuringExecution := [{
        labelSelector := {
          matchLabels := []
          matchExpressions := [
            { key := ClusterLabel, op := "Exists" },
            { key := DatacenterLabel, op := "Exists" },
            { key := RackLabel, op := "Exists" } ] }
        topologyKey := "kubernetes.io/hostname" }]
      preferredDuringSchedulingIgnoredDuringExecution := [] } :=
  ⟨rfl, rfl⟩

/-- Claim C4: for any datacenter whose declared size is at least 1 (and
within the `int32` range of the field's Go type), the disruption budget's
`MinAvailable` is exactly `size - 1`. -/
theorem claim_C4_minAvailable (dc : DseDatacenter)
    (h1 : 1 ≤ dc.spec.size) (h2 : dc.spec.size < 2 ^ 31) :
    (newPodDisruptionBudgetForDatacenter dc).minAvailable = dc.spec.size - 1 := by
  have h : toInt32 (dc.spec.size - 1) = dc.spec.size - 1 := by
    unfold toInt32
    omega
  simpa [newPodDisruptionBudgetForDatacenter] using h

/-- A datacenter of declared size 1. -/
def sizeOneDc : DseDatacenter :=
  { sampleDc with spec := { sampleSpec with size := 1 } }

/-- Witness for C4 at the size `1` edge: `MinAvailable` is `0`. -/
theorem claim_C4_witness :
    (newPodDisruptionBudgetForDatacenter sizeOneDc).minAvailable = 0 := by
  simpa using claim_C4_minAvailable sizeOneDc (by decide) (by decide)

/-- Claim C7: all three synthesized services are headless (`ClusterIP`
`"None"`); the client service exposes exactly ports 9042 (native) and 8080
(mgmt-api); the seed service's selector is the cluster label set restricted
to the seed marker `"true"` and publishes not-ready addresses; the all-pods
service's selector carries no seed restriction and also publishes
not-ready addresses. -/
theorem claim_C7_services (dc : DseDatacenter) :
    (newServiceForDseDatacenter dc).clusterIP = "None" ∧
    (newSeedServiceForDseDatacenter dc).clusterIP = "None" ∧
    (newAllDsePodsServiceForDseDatacenter dc).clusterIP = "None" ∧
    (newServiceForDseDatacenter dc).ports =
      [{ name := "native", port := 9042, targetPort := 9042 },
       { name := "mgmt-api", port := 8080, targetPort := 8080 }] ∧
    (newSeedServiceForDseDatacenter dc).selector =
      mapSet (GetClusterLabels dc) SeedNodeLabel "true" ∧
    (∀ k v, mapGet (GetClusterLabels dc) k = some v →
      mapGet (newSeedServiceForDseDatacenter dc).selector k = some v) ∧
    mapGet (newSeedServiceForDseDatacenter dc).selector SeedNodeLabel = some "true" ∧
    (newSeedServiceForDseDatacenter dc).publishNotReadyAddresses = true ∧
    (newAllDsePodsServiceForDseDatacenter dc).selector =
      AddManagedByLabel (GetDatacenterLabels dc) ∧
    mapGet (newAllDsePodsServiceForDseDatacenter dc).selector SeedNodeLabel = none ∧
    (newAllDsePodsServiceForDseDatacenter dc).publishNotReadyAddresses = true := by
  refine ⟨rfl, rfl, rfl, rfl, rfl, ?_, rfl, rfl, rfl, rfl, rfl⟩
  intro k v h
  exact mapGet_append_left h

/-- Claim C8: the StatefulSet's namespaced name is the deterministic
composite `<cluster>-<dc>-<rack>-sts` in the datacenter's namespace, and
any successfully synthesized StatefulSet carries exactly that name and
namespace. -/
theorem claim_C8_statefulset_name (dc : DseDatacenter) (rackName : String) :
    newNamespacedNameForStatefulSet dc rackName =
      { name := dc.spec.dseClusterName ++ "-" ++ dc.name ++ "-" ++ rackName ++ "-sts"
        ns := dc.ns } ∧
    (∀ replicaCount sts,
      newStatefulSetForDseDatacenter rackName dc replicaCount = .ok sts →
      sts.name = dc.spec.dseClusterName ++ "-" ++ dc.name ++ "-" ++ rackName ++ "-sts" ∧
      sts.ns = dc.ns) := by
  refine ⟨rfl, ?_⟩
  intro replicaCount sts h
  rcases hcfg : dc.spec.configAsJSON with e | configData
  · simp [newStatefulSetForDseDatacenter, hcfg] at h
  rcases hports : dc.spec.containerPorts with e | ports
  · simp [newStatefulSetForDseDatacenter, hcfg, hports] at h
  rcases himg : dc.spec.serverImage with e | img
  · simp [newStatefulSetForDseDatacenter, hcfg, hports, himg] at h
  simp [newStatefulSetForDseDatacenter, hcfg, hports, himg,
    newNamespacedNameForStatefulSet] at h
  subst h
  exact ⟨rfl, rfl⟩

/-- Witness for C8 on the sample datacenter: name and namespace computed
concretely. -/
theorem claim_C8_witness :
    ∃ sts, newStatefulSetForDseDatacenter "rack1" sampleDc 3 = Except.ok sts ∧
      sts.name = "cluster1-dc1-rack1-sts" ∧ sts.ns = "default" := by
  obtain ⟨sts, hsts⟩ :
      ∃ sts, newStatefulSetForDseDatacenter "rack1" sampleDc 3 = Except.ok sts :=
    ⟨_, rfl⟩
  have h := (claim_C8_statefulset_name sampleDc "rack1").2 3 sts hsts
  exact ⟨sts, hsts, h.1.trans rfl, h.2.trans rfl⟩

/-- Claim C5: `addOperatorProgressLabel` performs no persistence write when
the stored progress label already equals the desired value; otherwise it
performs exactly one write and propagates the client's error; hence two
consecutive calls with the same desired value issue exactly one write when
the first write succeeds. -/
theorem claim_C5_addOperatorProgressLabel (rc : ReconciliationContext)
    (status : DseOperatorStatus) :
    (mapGetD (rc.dcLabels.getD []) DseOperatorProgressLabel =
        dseOperatorStatusString status →
      addOperatorProgressLabel rc status = (rc, none)) ∧
    (mapGetD (rc.dcLabels.getD []) DseOperatorProgressLabel ≠
        dseOperatorStatusString status →
      (addOperatorProgressLabel rc status).1.client.writeCount =
          rc.client.writeCount + 1 ∧
        (addOperatorProgressLabel rc status).2 = rc.client.updateResult) ∧
    (rc.client.updateResult = none →
      (addOperatorProgressLabel
          (addOperatorProgressLabel rc status).1 status).1.client.writeCount =
        (addOperatorProgressLabel rc status).1.client.writeCount) ∧
    (mapGetD (rc.dcLabels.getD []) DseOperatorProgressLabel ≠
        dseOperatorStatusString status →
      rc.client.updateResult = none →
      (addOperatorProgressLabel
          (addOperatorProgressLabel rc status).1 status).1.client.writeCount =
        rc.client.writeCount + 1) := by
  have hset : mapGetD
      (mapSet (rc.dcLabels.getD []) DseOperatorProgressLabel
        (dseOperatorStatusString status))
      DseOperatorProgressLabel = dseOperatorStatusString status := by
    simp [mapGetD, mapGet_mapSet_self]
  have heq : mapGetD (rc.dcLabels.getD []) DseOperatorProgressLabel =
      dseOperatorStatusString status →
      addOperatorProgressLabel rc status = (rc, none) := by
    intro h
    rcases hdl : rc.dcLabels with _ | l <;>
      rw [hdl] at h <;>
      simp_all [addOperatorProgressLabel]
  have hne : mapGetD (rc.dcLabels.getD []) DseOperatorProgressLabel ≠
      dseOperatorStatusString status →
      (addOperatorProgressLabel rc status).1.client.writeCount =
          rc.client.writeCount + 1 ∧
        (addOperatorProgressLabel rc status).2 = rc.client.updateResult := by
    intro h
    rcases hur : rc.client.updateResult with _ | err <;>
      rcases hdl : rc.dcLabels with _ | l <;>
        rw [hdl] at h <;>
        simp_all [addOperatorProgressLabel, clientUpdate]
  have htwice : rc.client.updateResult = none →
      (addOperatorProgressLabel
          (addOperatorProgressLabel rc status).1 status).1.client.writeCount =
        (addOperatorProgressLabel rc status).1.client.writeCount := by
    intro hsucc
    by_cases h : mapGetD (rc.dcLabels.getD []) DseOperatorProgressLabel =
        dseOperatorStatusString status
    · rw [heq h, heq h]
    · rcases hdl : rc.dcLabels with _ | l <;>
        rw [hdl] at h hset <;>
        simp_all [addOperatorProgressLabel, clientUpdate]
  refine ⟨heq, hne, htwice, fun h hsucc => ?_⟩
  rw [htwice hsucc, (hne h).1]

/-- Witness for C5: from an unlabeled datacenter, transitioning to `Ready`
twice issues exactly one persistence write. -/
theorem claim_C5_witness :
    (addOperatorProgressLabel
      { dcLabels := some [], client := { updateResult := none } }
      .ready).1.client.writeCount = 1 ∧
    (addOperatorProgressLabel
      (addOperatorProgressLabel
        { dcLabels := some [], client := { updateResult := none } }
        .ready).1 .ready).1.client.writeCount = 1 := by
  have h := claim_C5_addOperatorProgressLabel
    { dcLabels := some [], client := { updateResult := none } } .ready
  exact ⟨(h.2.1 (by decide)).1, h.2.2.2 (by decide) rfl⟩

/-- Claim C9: a failure of config rendering, container-port resolution or
server-image resolution makes `newStatefulSetForDseDatacenter` return
exactly that error; no partial StatefulSet accompanies an error. -/
theorem claim_C9_error_propagation (rackName : String) (dc : DseDatacenter)
    (replicaCount : Int) :
    (∀ e, dc.spec.configAsJSON = .error e →
      newStatefulSetForDseDatacenter rackName dc replicaCount = .error e) ∧
    (∀ e configData, dc.spec.configAsJSON = .ok configData →
      dc.spec.containerPorts = .error e →
      newStatefulSetForDseDatacenter rackName dc replicaCount = .error e) ∧
    (∀ e configData ports, dc.spec.configAsJSON = .ok configData →
      dc.spec.containerPorts = .ok ports →
      dc.spec.serverImage = .error e →
      newStatefulSetForDseDatacenter rackName dc replicaCount = .error e) := by
  refine ⟨?_, ?_, ?_⟩
  · intro e h
    simp [newStatefulSetForDseDatacenter, h]
  · intro e configData h1 h2
    simp [newStatefulSetForDseDatacenter, h1, h2]
  · intro e configData ports h1 h2 h3
    simp [newStatefulSetForDseDatacenter, h1, h2, h3]

/-- A datacenter on which config rendering fails. -/
def cfgErrDc : DseDatacenter :=
  { sampleDc with spec := { sampleSpec with configAsJSON := .error "render failed" } }

/-- Witness for C9: a config-rendering failure aborts synthesis with that
error. -/
theorem claim_C9_witness :
    newStatefulSetForDseDatacenter "rack1" cfgErrDc 3 = Except.error "render failed" :=
  (claim_C9_error_propagation "rack1" cfgErrDc 3).1 "render failed" rfl

/-- Security decoration leaves the pod template's labels untouched. -/
theorem addSecurity_labels (dc : DseDatacenter) (t : PodTemplateSpec) :
    (AddManagementApiServerSecurity dc t).1.labels = t.labels := by
  rcases h : dc.spec.managementApiSecurity with e | mat <;>
    simp [AddManagementApiServerSecurity, h]

/-- Claim C6: when the storage claim is present, the synthesized
StatefulSet has exactly one volume claim template, named `dse-data`, with
access mode forced to `ReadWriteOnce` and the declared storage class and
resources, and the main container carries the corresponding data-volume
mount; when the storage claim is absent there are zero claim templates. -/
theorem claim_C6_storage (rackName : String) (dc : DseDatacenter)
    (replicaCount : Int) (sts : StatefulSet)
    (h : newStatefulSetForDseDatacenter rackName dc replicaCount = .ok sts) :
    (∀ sc, dc.spec.storageClaim = some sc →
      sts.volumeClaimTemplates = [{
        labels := AddManagedByLabel (GetRackLabels dc rackName)
        name := "dse-data"
        accessModes := ["ReadWriteOnce"]
        resources := sc.resources
        storageClassName := sc.storageClassName }] ∧
      ∃ c, sts.template.spec.containers.head? = some c ∧ c.name = "dse" ∧
        ({ name := "dse-data", mountPath := "/var/lib/cassandra" } : VolumeMount) ∈
          c.volumeMounts) ∧
    (dc.spec.storageClaim = none → sts.volumeClaimTemplates = []) := by
  rcases hcfg : dc.spec.configAsJSON with e | configData
  · simp [newStatefulSetForDseDatacenter, hcfg] at h
  rcases hports : dc.spec.containerPorts with e | ports
  · simp [newStatefulSetForDseDatacenter, hcfg, hports] at h
  rcases himg : dc.spec.serverImage with e | img
  · simp [newStatefulSetForDseDatacenter, hcfg, hports, himg] at h
  simp [newStatefulSetForDseDatacenter, hcfg, hports, himg] at h
  subst h
  constructor
  · intro sc hsc
    refine ⟨by simp [volumeCaimTemplatesFor, hsc], ?_⟩
    rcases hsec : dc.spec.managementApiSecurity with e | mat <;>
      simp [AddManagementApiServerSecurity, hsec, buildDsePodTemplateSpec,
        dseVolumeMountsFor, hsc]
  · intro hsc
    simp [volumeCaimTemplatesFor, hsc]

/-- Witness for C6 on the sample datacenter with a 10Gi `standard` claim. -/
theorem claim_C6_witness :
    ∃ sts, newStatefulSetForDseDatacenter "rack1" sampleDc 3 = Except.ok sts ∧
      sts.volumeClaimTemplates = [{
        labels := AddManagedByLabel (GetRackLabels sampleDc "rack1")
        name := "dse-data"
        accessModes := ["ReadWriteOnce"]
        resources := "10Gi"
        storageClassName := "standard" }] := by
  obtain ⟨sts, hsts⟩ :
      ∃ sts, newStatefulSetForDseDatacenter "rack1" sampleDc 3 = Except.ok sts :=
    ⟨_, rfl⟩
  have h := claim_C6_storage "rack1" sampleDc 3 sts hsts
  exact ⟨sts, hsts, (h.1 sampleStorageClaim rfl).1⟩

/-- Claim C10: the StatefulSet's selector is exactly the rack-scope labels
(no provenance tag), the pod template's labels extend them with the
provenance tag and the node-state label `"Ready-to-Start"`, and every
selector entry is carried by the pod labels. -/
theorem claim_C10_selector_subset (rackName : String) (dc : DseDatacenter)
    (replicaCount : Int) (sts : StatefulSet)
    (h : newStatefulSetForDseDatacenter rackName dc replicaCount = .ok sts) :
    sts.selectorMatchLabels = GetRackLabels dc rackName ∧
    (∀ k v, mapGet sts.selectorMatchLabels k = some v →
      mapGet sts.template.labels k = some v) ∧
    mapGet sts.template.labels ManagedByLabelKey = some ManagedByLabelValue ∧
    mapGet sts.selectorMatchLabels ManagedByLabelKey = none ∧
    mapGet sts.template.labels DseNodeState = some "Ready-to-Start" ∧
    mapGet sts.selectorMatchLabels DseNodeState = none := by
  rcases hcfg : dc.spec.configAsJSON with e | configData
  · simp [newStatefulSetForDseDatacenter, hcfg] at h
  rcases hports : dc.spec.containerPorts with e | ports
  · simp [newStatefulSetForDseDatacenter, hcfg, hports] at h
  rcases himg : dc.spec.serverImage with e | img
  · simp [newStatefulSetForDseDatacenter, hcfg, hports, himg] at h
  simp [newStatefulSetForDseDatacenter, hcfg, hports, himg] at h
  subst h
  have hlab :
      (AddManagementApiServerSecurity dc
        (buildDsePodTemplateSpec rackName dc configData ports img)).1.labels =
      GetRackLabels dc rackName ++
        [(ManagedByLabelKey, ManagedByLabelValue), (DseNodeState, "Ready-to-Start")] := by
    rw [addSecurity_labels]
    rfl
  refine ⟨rfl, ?_, ?_, rfl, ?_, rfl⟩
  · intro k v hk
    simp only [hlab]
    exact mapGet_append_left hk
  · rw [hlab]
    rfl
  · rw [hlab]
    rfl

/-- Witness for C10 on the sample datacenter. -/
theorem claim_C10_witness :
    ∃ sts, newStatefulSetForDseDatacenter "rack1" sampleDc 3 = Except.ok sts ∧
      mapGet sts.template.labels ManagedByLabelKey = some ManagedByLabelValue ∧
      mapGet sts.selectorMatchLabels ManagedByLabelKey = none := by
  obtain ⟨sts, hsts⟩ :
      ∃ sts, newStatefulSetForDseDatacenter "rack1" sampleDc 3 = Except.ok sts :=
    ⟨_, rfl⟩
  have h := claim_C10_selector_subset "rack1" sampleDc 3 sts hsts
  exact ⟨sts, hsts, h.2.2.1, h.2.2.2.1⟩

/-- A datacenter on which the security decorator fails. -/
def secErrDc : DseDatacenter :=
  { sampleDc with
      spec := { sampleSpec with
        managementApiSecurity := .error "security decoration failed" } }

/-- Counterexample to C1 as stated: on `secErrDc` the security decorator
returns an error, yet `newStatefulSetForDseDatacenter` returns the
StatefulSet successfully — the error is not propagated (the source discards
it with a blank identifier). -/
theorem claim_C1_counterexample :
    (AddManagementApiServerSecurity secErrDc
        (buildDsePodTemplateSpec "rack1" secErrDc "{}" ["native", "mgmt-api"]
          "datastax/dse-server:6.8.0")).2 = some "security decoration failed" ∧
    (newStatefulSetForDseDatacenter "rack1" secErrDc 3).isOk = true :=
  ⟨rfl, by decide⟩

/-- Claim C1 (amended): when the security decorator fails, the error is
discarded — synthesis still succeeds whenever config, ports and image
resolve, and the returned StatefulSet's template is exactly the assembled
template, with no field rolled back. -/
theorem claim_C1_security_error_discarded (rackName : String)
    (dc : DseDatacenter) (replicaCount : Int) (e : String)
    (configData : String) (ports : List String) (dseImage : String)
    (hcfg : dc.spec.configAsJSON = .ok configData)
    (hports : dc.spec.containerPorts = .ok ports)
    (himg : dc.spec.serverImage = .ok dseImage)
    (hsec : dc.spec.managementApiSecurity = .error e) :
    ∃ sts, newStatefulSetForDseDatacenter rackName dc replicaCount = .ok sts ∧
      sts.template = buildDsePodTemplateSpec rackName dc configData ports dseImage := by
  refine ⟨{
      name := (newNamespacedNameForStatefulSet dc rackName).name
      ns := (newNamespacedNameForStatefulSet dc rackName).ns
      labels := AddManagedByLabel (GetRackLabels dc rackName)
      selectorMatchLabels := GetRackLabels dc rackName
      replicas := toInt32 replicaCount
      serviceName := GetDseDatacenterServiceName dc
      podManagementPolicy := "Parallel"
      template := buildDsePodTemplateSpec rackName dc configData ports dseImage
      volumeClaimTemplates := volumeCaimTemplatesFor rackName dc }, ?_, rfl⟩
  simp [newStatefulSetForDseDatacenter, hcfg, hports, himg,
    AddManagementApiServerSecurity, hsec]

/-- Witness for the amended C1 on `secErrDc`. -/
theorem claim_C1_witness :
    ∃ sts, newStatefulSetForDseDatacenter "rack1" secErrDc 3 = Except.ok sts ∧
      sts.template = buildDsePodTemplateSpec "rack1" secErrDc "{}"
        ["native", "mgmt-api"] "datastax/dse-server:6.8.0" :=
  claim_C1_security_error_discarded "rack1" secErrDc 3 "security decoration failed"
    "{}" ["native", "mgmt-api"] "datastax/dse-server:6.8.0" rfl rfl rfl rfl

end CassOperator
